import Mathlib

/-!
Verification of the galaxy control-plane daemon (`app.py`) against its
natural-language specification.  The Python source is shallowly embedded:
JSON-ish request values become the inductive type `PyVal`, the request body
becomes an insertion-ordered association list `Data`, fallible Python code
(key access, `int()` conversion) becomes `Except PyErr`, and each route
handler becomes a pure state-passing function.  Python string primitives
(`strip`, `lower`, `split`, `in`, `replace`, `isdigit`) are re-implemented
over character lists so that every definition is kernel-computable.
-/

/-- A JSON-ish Python value as delivered by `request.json`. -/
inductive PyVal where
  | s (v : String)
  | b (v : Bool)
  | i (v : Int)
  | l (v : List PyVal)
  | null

/-- Python exceptions that the embedded code can raise. -/
inductive PyErr where
  | keyError (key : String)
  | valueError (msg : String)
  | typeError (msg : String)
deriving DecidableEq, Repr

/-- Python `str(e)` for the exceptions above: `str(KeyError('k'))` is `"'k'"`,
`str(ValueError(m))` is `m` itself. -/
def PyErr.toMsg : PyErr → String
  | .keyError k => "'" ++ k ++ "'"
  | .valueError m => m
  | .typeError m => m

/-- ASCII whitespace as recognised by Python `str.strip()`. -/
def pyIsSpace (c : Char) : Bool :=
  c = ' ' || c = '\t' || c = '\n' || c = '\r' || c = '\x0b' || c = '\x0c'

/-- Drop leading whitespace characters. -/
def dropWs : List Char → List Char
  | [] => []
  | c :: cs => if pyIsSpace c then dropWs cs else c :: cs

/-- Python `str.strip()`: whitespace removed from both ends. -/
def pyStrip (s : String) : String :=
  ⟨((dropWs ((dropWs s.data).reverse)).reverse)⟩

/-- ASCII lower-casing of one character, as Python `str.lower()` does. -/
def pyLowerChar (c : Char) : Char :=
  if 'A' ≤ c ∧ c ≤ 'Z' then Char.ofNat (c.toNat + 32) else c

/-- Python `str.lower()` (ASCII fragment). -/
def pyLower (s : String) : String := ⟨s.data.map pyLowerChar⟩

/-- Python truthiness `bool(value)` for the embedded value type. -/
def pyTruthy : PyVal → Bool
  | .s v => v != ""
  | .b v => v
  | .i v => v != 0
  | .l v => !v.isEmpty
  | .null => false

/-- The coercion `string_to_bool` from `app.py`: a string is truthy iff its lower-cased,
stripped form is one of `'true' '1' 'yes' 'on'` (the tuple membership test of
the source); any other value goes through Python `bool()`. -/
def string_to_bool : PyVal → Bool
  | .s v =>
    let t := pyStrip (pyLower v)
    t == "true" || t == "1" || t == "yes" || t == "on"
  | other => pyTruthy other

/-- A request body: the flat slot-suffixed mapping, in insertion order. -/
abbrev Data := List (String × PyVal)

/-- First-match association-list lookup (Python dict access by key). -/
def alookup : List (String × PyVal) → String → Option PyVal
  | [], _ => Option.none
  | (k, v) :: rest, key => if key = k then some v else alookup rest key

/-- Python `data[k]` — raises `KeyError(k)` when absent. -/
def dget (d : Data) (k : String) : Except PyErr PyVal :=
  match alookup d k with
  | some v => .ok v
  | Option.none => .error (.keyError k)

/-- Python `data.get(k, default)`. -/
def dgetD (d : Data) (k : String) (dflt : PyVal) : PyVal :=
  (alookup d k).getD dflt

/-- All characters are ASCII decimal digits (and the list is nonempty). -/
def allDigits (cs : List Char) : Bool :=
  cs ≠ [] && cs.all (fun c => '0' ≤ c && c ≤ '9')

/-- Numeric value of a digit string. -/
def natOfDigits (cs : List Char) : Nat :=
  cs.foldl (fun a c => a * 10 + (c.toNat - 48)) 0

/-- Python `int(s)` on a string: strip whitespace, optional sign, digits. -/
def pyIntOfString (s : String) : Option Int :=
  match (pyStrip s).data with
  | '+' :: rest => if allDigits rest then some (natOfDigits rest) else Option.none
  | '-' :: rest => if allDigits rest then some (-(natOfDigits rest : Int)) else Option.none
  | cs => if allDigits cs then some ((natOfDigits cs : Int)) else Option.none

/-- Python `int(value)`: ints pass through, booleans become 0/1, strings are
parsed (raising `ValueError` with a message quoting the offending value),
anything else raises `TypeError`. -/
def pyInt : PyVal → Except PyErr Int
  | .i v => .ok v
  | .b v => .ok (if v then 1 else 0)
  | .s v =>
    match pyIntOfString v with
    | some n => .ok n
    | Option.none =>
      .error (.valueError ("invalid literal for int() with base 10: '" ++ v ++ "'"))
  | .l _ => .error (.typeError "int() argument must be a string, a bytes-like object or a real number, not 'list'")
  | .null => .error (.typeError "int() argument must be a string, a bytes-like object or a real number, not 'NoneType'")

/-- Split a string at every occurrence of `sep`, keeping empty tokens
(Python `str.split(sep)` for a one-character separator; `""` gives `[""]`). -/
def splitCharAux (sep : Char) : List Char → List Char → List String
  | [], acc => [⟨acc.reverse⟩]
  | c :: cs, acc =>
    if c = sep then ⟨acc.reverse⟩ :: splitCharAux sep cs []
    else splitCharAux sep cs (c :: acc)

/-- Python `s.split(sep)` for a single-character separator. -/
def pySplitChar (sep : Char) (s : String) : List String :=
  splitCharAux sep s.data []

/-- The list-field normalization of `write_config_instant` (line 54):
`data[k].split(',') if isinstance(data[k], str) else data[k]`. -/
def normalizeList : PyVal → PyVal
  | .s v => .l ((pySplitChar ',' v).map PyVal.s)
  | other => other

/-- A config record as persisted: an insertion-ordered association list,
mirroring the Python dict. -/
abbrev Config := List (String × PyVal)

/-- Python `int(data[k])`: key access then integer conversion. -/
def dgetInt (d : Data) (k : String) : Except PyErr Int := do
  let v ← dget d k
  pyInt v

/-- Python `int(data.get(k, dflt))`: defaulted access then integer conversion. -/
def dgetIntD (d : Data) (k : String) (dflt : Int) : Except PyErr Int :=
  pyInt (dgetD d k (.i dflt))

/-- The six RC2-prefixed secondary timing field names of the config record. -/
def secondaryTimingKeys : List String :=
  ["RC2_startAttackTime", "RC2_stopAttackTime", "RC2_attackIntervalTime",
   "RC2_startDefenceTime", "RC2_stopDefenceTime", "RC2_defenceIntervalTime"]

/-- The six primary (RC1-prefixed) timing field names of the config record. -/
def primaryTimingKeys : List String :=
  ["RC1_startAttackTime", "RC1_stopAttackTime", "RC1_attackIntervalTime",
   "RC1_startDefenceTime", "RC1_stopDefenceTime", "RC1_defenceIntervalTime"]

/-- The declared numeric field names the `/update` config build actually
passes through `int()`: the six primary fields always, plus the six
secondary fields exactly when `dualRCToggle` coerces true (app.py lines
297-302 and 315-323). -/
def evaluatedNumericKeys (d : Data) (n : Nat) : List String :=
  primaryTimingKeys ++
    (if string_to_bool (dgetD d ("dualRCToggle" ++ toString n) (.b true)) then
      secondaryTimingKeys
    else [])

/-- The value sitting at key `k` (if any) has a shape `int()` accepts or
rejects with a ValueError: it is not a list and not None (either of which
would make `int()` raise a TypeError instead). -/
def numericShaped (d : Data) (k : String) : Bool :=
  match alookup d k with
  | some (.l _) => false
  | some .null => false
  | _ => true

/-- The unconditional part of the dict built by `write_config_instant`
(lines 44-62 of `app.py`), in insertion order. -/
def wcBase (rc1 rc2 : PyVal) (t1 t2 t3 t4 t5 t6 : Int)
    (pn bl wl kat soe aoe act drc apt : PyVal) : Config :=
  [("RC1", rc1), ("RC2", rc2),
   ("RC1_startAttackTime", .i t1), ("RC1_stopAttackTime", .i t2),
   ("RC1_attackIntervalTime", .i t3), ("RC1_startDefenceTime", .i t4),
   ("RC1_stopDefenceTime", .i t5), ("RC1_defenceIntervalTime", .i t6),
   ("planetName", pn),
   ("blackListRival", normalizeList bl), ("whiteListMember", normalizeList wl),
   ("kickAllToggle", .b (string_to_bool kat)), ("standOnEnemy", .b (string_to_bool soe)),
   ("actionOnEnemy", .b (string_to_bool aoe)), ("aiChatToggle", .b (string_to_bool act)),
   ("dualRCToggle", .b (string_to_bool drc)), ("aiPilotToggle", .b (string_to_bool apt))]

/-- The conditional secondary timing block (lines 64-70 / 315-323). -/
def rc2Block (u1 u2 u3 u4 u5 u6 : Int) : Config :=
  [("RC2_startAttackTime", .i u1), ("RC2_stopAttackTime", .i u2),
   ("RC2_attackIntervalTime", .i u3), ("RC2_startDefenceTime", .i u4),
   ("RC2_stopDefenceTime", .i u5), ("RC2_defenceIntervalTime", .i u6)]

/-- The six `int(data[f'RC2_...{n}'])` reads of `write_config_instant`
lines 65-70, in source order. -/
def wcSecondary (d : Data) (n : Nat) : Except PyErr Config := do
  let u1 ← dgetInt d ("RC2_startAttackTime" ++ toString n)
  let u2 ← dgetInt d ("RC2_stopAttackTime" ++ toString n)
  let u3 ← dgetInt d ("RC2_attackIntervalTime" ++ toString n)
  let u4 ← dgetInt d ("RC2_startDefenceTime" ++ toString n)
  let u5 ← dgetInt d ("RC2_stopDefenceTime" ++ toString n)
  let u6 ← dgetInt d ("RC2_defenceIntervalTime" ++ toString n)
  pure (rc2Block u1 u2 u3 u4 u5 u6)

/-- The six defaulted `int(data.get(f'RC2_...{n}', dflt))` reads of
`update_galaxy` lines 317-322, in source order. -/
def ucSecondary (d : Data) (n : Nat) : Except PyErr Config := do
  let u1 ← dgetIntD d ("RC2_startAttackTime" ++ toString n) 1875
  let u2 ← dgetIntD d ("RC2_stopAttackTime" ++ toString n) 1900
  let u3 ← dgetIntD d ("RC2_attackIntervalTime" ++ toString n) 5
  let u4 ← dgetIntD d ("RC2_startDefenceTime" ++ toString n) 1850
  let u5 ← dgetIntD d ("RC2_stopDefenceTime" ++ toString n) 1925
  let u6 ← dgetIntD d ("RC2_defenceIntervalTime" ++ toString n) 5
  pure (rc2Block u1 u2 u3 u4 u5 u6)

/-- The pure part of `write_config_instant` (app.py lines 42-75): builds the
config dict from the raw body — indexing raises `KeyError`, `int()` raises
`ValueError`/`TypeError` — appends the secondary block when `dualRCToggle`
coerces true, then the `lastUpdated` timestamp.  Field evaluation follows the
source's dict-literal order, so the first failing field determines the
raised exception. -/
def write_config_instant (d : Data) (n : Nat) (ts : Int) : Except PyErr Config := do
  let rc1 ← dget d ("RC1" ++ toString n)
  let rc2 ← dget d ("RC2" ++ toString n)
  let t1 ← dgetInt d ("RC1_startAttackTime" ++ toString n)
  let t2 ← dgetInt d ("RC1_stopAttackTime" ++ toString n)
  let t3 ← dgetInt d ("RC1_attackIntervalTime" ++ toString n)
  let t4 ← dgetInt d ("RC1_startDefenceTime" ++ toString n)
  let t5 ← dgetInt d ("RC1_stopDefenceTime" ++ toString n)
  let t6 ← dgetInt d ("RC1_defenceIntervalTime" ++ toString n)
  let pn ← dget d ("PlanetName" ++ toString n)
  let bl ← dget d ("blackListRival" ++ toString n)
  let wl ← dget d ("whiteListMember" ++ toString n)
  let kat ← dget d ("kickAllToggle" ++ toString n)
  let soe ← dget d ("standOnEnemy" ++ toString n)
  let aoe ← dget d ("actionOnEnemy" ++ toString n)
  let act ← dget d ("aiChatToggle" ++ toString n)
  let drc ← dget d ("dualRCToggle" ++ toString n)
  let apt ← dget d ("aiPilotToggle" ++ toString n)
  (if string_to_bool drc then wcSecondary d n else pure ([] : Config)) >>= fun rc2b =>
    pure (wcBase rc1 rc2 t1 t2 t3 t4 t5 t6 pn bl wl kat soe aoe act drc apt ++
          rc2b ++ [("lastUpdated", PyVal.i ts)])

/-- The unconditional part of the dict built by `update_galaxy`
(app.py lines 294-313): every field is read with `data.get` and a default,
so only `int()` conversions can fail.  Ends with the `timestamp` field. -/
def ucBase (d : Data) (n : Nat) (t1 t2 t3 t4 t5 t6 : Int) (ts : Int) : Config :=
  [("RC1", dgetD d ("RC1" ++ toString n) (.s "")),
   ("RC2", dgetD d ("RC2" ++ toString n) (.s "")),
   ("RC1_startAttackTime", .i t1), ("RC1_stopAttackTime", .i t2),
   ("RC1_attackIntervalTime", .i t3), ("RC1_startDefenceTime", .i t4),
   ("RC1_stopDefenceTime", .i t5), ("RC1_defenceIntervalTime", .i t6),
   ("planetName", dgetD d ("PlanetName" ++ toString n) (.s "")),
   ("blackListRival", dgetD d ("blackListRival" ++ toString n) (.l [])),
   ("whiteListMember", dgetD d ("whiteListMember" ++ toString n) (.l [])),
   ("kickAllToggle", .b (string_to_bool (dgetD d ("kickAllToggle" ++ toString n) (.b true)))),
   ("standOnEnemy", .b (string_to_bool (dgetD d ("standOnEnemy" ++ toString n) (.b true)))),
   ("actionOnEnemy", .b (string_to_bool (dgetD d ("actionOnEnemy" ++ toString n) (.b false)))),
   ("aiChatToggle", .b (string_to_bool (dgetD d ("aiChatToggle" ++ toString n) (.b false)))),
   ("dualRCToggle", .b (string_to_bool (dgetD d ("dualRCToggle" ++ toString n) (.b true)))),
   ("aiPilotToggle", .b (string_to_bool (dgetD d ("aiPilotToggle" ++ toString n) (.b false)))),
   ("timestamp", .i ts)]

/-- The config object built by the `/update` handler (app.py lines 294-323):
defaulted reads, then `config.update` appends the secondary block (with the
documented defaults 1875/1900/5/1850/1925/5) when `dualRCToggle` coerces
true. -/
def update_config (d : Data) (n : Nat) (ts : Int) : Except PyErr Config := do
  let t1 ← dgetIntD d ("RC1_startAttackTime" ++ toString n) 1870
  let t2 ← dgetIntD d ("RC1_stopAttackTime" ++ toString n) 1900
  let t3 ← dgetIntD d ("RC1_attackIntervalTime" ++ toString n) 5
  let t4 ← dgetIntD d ("RC1_startDefenceTime" ++ toString n) 1870
  let t5 ← dgetIntD d ("RC1_stopDefenceTime" ++ toString n) 1900
  let t6 ← dgetIntD d ("RC1_defenceIntervalTime" ++ toString n) 5
  (if string_to_bool (dgetD d ("dualRCToggle" ++ toString n) (.b true)) then
      ucSecondary d n
    else pure ([] : Config)) >>= fun rc2b =>
    pure (ucBase d n t1 t2 t3 t4 t5 t6 ts ++ rc2b)

/-- A complete slot-1 request body used to exercise the theorems. -/
def sampleData : Data :=
  [("RC11", .s "user1"), ("RC21", .s "user2"),
   ("RC1_startAttackTime1", .s "1870"), ("RC1_stopAttackTime1", .i 1900),
   ("RC1_attackIntervalTime1", .i 5), ("RC1_startDefenceTime1", .i 1870),
   ("RC1_stopDefenceTime1", .i 1900), ("RC1_defenceIntervalTime1", .i 5),
   ("PlanetName1", .s "Earth"), ("blackListRival1", .s "a, b"),
   ("whiteListMember1", .l [.s "m1"]),
   ("kickAllToggle1", .s "true"), ("standOnEnemy1", .b true),
   ("actionOnEnemy1", .s "no"), ("aiChatToggle1", .b false),
   ("dualRCToggle1", .s "TRUE"), ("aiPilotToggle1", .i 0),
   ("RC2_startAttackTime1", .i 1875), ("RC2_stopAttackTime1", .i 1900),
   ("RC2_attackIntervalTime1", .i 5), ("RC2_startDefenceTime1", .i 1850),
   ("RC2_stopDefenceTime1", .i 1925), ("RC2_defenceIntervalTime1", .i 5)]

/-- The config record `write_config_instant` produces from `sampleData`. -/
def sampleCfg : Config :=
  [("RC1", .s "user1"), ("RC2", .s "user2"),
   ("RC1_startAttackTime", .i 1870), ("RC1_stopAttackTime", .i 1900),
   ("RC1_attackIntervalTime", .i 5), ("RC1_startDefenceTime", .i 1870),
   ("RC1_stopDefenceTime", .i 1900), ("RC1_defenceIntervalTime", .i 5),
   ("planetName", .s "Earth"),
   ("blackListRival", .l [.s "a", .s " b"]), ("whiteListMember", .l [.s "m1"]),
   ("kickAllToggle", .b true), ("standOnEnemy", .b true),
   ("actionOnEnemy", .b false), ("aiChatToggle", .b false),
   ("dualRCToggle", .b true), ("aiPilotToggle", .b false),
   ("RC2_startAttackTime", .i 1875), ("RC2_stopAttackTime", .i 1900),
   ("RC2_attackIntervalTime", .i 5), ("RC2_startDefenceTime", .i 1850),
   ("RC2_stopDefenceTime", .i 1925), ("RC2_defenceIntervalTime", .i 5),
   ("lastUpdated", .i 0)]

/-- Whether `hay` begins with `needle`. -/
def leadsWith : List Char → List Char → Bool
  | [], _ => true
  | _ :: _, [] => false
  | a :: as, b :: bs => a == b && leadsWith as bs

/-- Whether `needle` occurs contiguously inside `hay`. -/
def occursIn : List Char → List Char → Bool
  | needle, [] => leadsWith needle []
  | needle, b :: bs => leadsWith needle (b :: bs) || occursIn needle bs

/-- Python's `needle in hay` substring test. -/
def pyIn (needle hay : String) : Bool := occursIn needle.data hay.data

/-- The in-memory `config_cache`: slot → last config written. -/
abbrev Cache := List (Nat × Config)

/-- Assignment `config_cache[form_number] = config`. -/
def cacheSet (c : Cache) (n : Nat) (cfg : Config) : Cache :=
  (n, cfg) :: c.filter (fun p => p.1 != n)

/-- Responses of the `/start` handler. -/
inductive StartResult where
  | invalidForm
  | internalError (msg : String)
  | scriptMissing (script : String)
  | starting (form : Nat)

/-- Synchronous outcome of `/start`: the HTTP result, the config cache after
the call, and whether the background task that would eventually record a
process handle was submitted. -/
structure StartOut where
  result : StartResult
  cache : Cache
  bgStartSubmitted : Bool

/-- The `/start/<n>` handler (app.py lines 203-261), modelled synchronously:
slot validation, then `write_config_instant` on the raw body (which caches
the config and schedules its file write), then the
`os.path.exists(script_path)` check (`scriptExists`), and only then the
submission of the background start task.  Exceptions from the config build
are caught and reported as a 500 with `str(e)`. -/
def start_galaxy (d : Data) (n : Nat) (scriptExists : Bool) (cache : Cache) (ts : Int) :
    StartOut :=
  if 1 ≤ n ∧ n ≤ 5 then
    match write_config_instant d n ts with
    | .error e => ⟨.internalError e.toMsg, cache, false⟩
    | .ok cfg =>
      if scriptExists then ⟨.starting n, cacheSet cache n cfg, true⟩
      else ⟨.scriptMissing ("galaxy_" ++ toString n ++ ".js"), cacheSet cache n cfg, false⟩
  else ⟨.invalidForm, cache, false⟩

/-- Responses of the `/update` handler. -/
inductive UpdateResult where
  | invalidForm
  | internalError (msg : String)
  | updatedWebsocket
  | updatedFile (configKeys : List String)

/-- Outcome of `/update`: the HTTP result and the config cache after. -/
structure UpdateOut where
  result : UpdateResult
  cache : Cache

/-- The `/update/<n>` handler (app.py lines 284-364): slot validation, the
defaulted config build, then the live channel when a session is registered
for the slot (`wsRegistered`) and a matching response arrives inside the wait
window (`wsAcks`), else the file fallback `write_config_instant` over the raw
body.  Any exception is caught and reported as a 500 with `str(e)`; the
config cache is only touched by the file fallback. -/
def update_galaxy (d : Data) (n : Nat) (wsRegistered wsAcks : Bool)
    (cache : Cache) (ts : Int) : UpdateOut :=
  if 1 ≤ n ∧ n ≤ 5 then
    match update_config d n ts with
    | .error e => ⟨.internalError e.toMsg, cache⟩
    | .ok _cfg =>
      if wsRegistered && wsAcks then ⟨.updatedWebsocket, cache⟩
      else
        match write_config_instant d n ts with
        | .error e => ⟨.internalError e.toMsg, cache⟩
        | .ok cfg => ⟨.updatedFile (cfg.map Prod.fst), cacheSet cache n cfg⟩
  else ⟨.invalidForm, cache⟩

/-- A slot-3 update body: `dualRCToggle` coerces true but every secondary
timing field is absent. -/
def updateBody3 : Data :=
  [("RC13", .s "u1"), ("RC23", .s "u2"), ("PlanetName3", .s "Mars"),
   ("dualRCToggle3", .s "true")]

/-- The config the `/update` handler builds from `updateBody3`: the missing
secondary fields are silently filled with the in-code defaults. -/
def updateCfg3 : Config :=
  [("RC1", .s "u1"), ("RC2", .s "u2"),
   ("RC1_startAttackTime", .i 1870), ("RC1_stopAttackTime", .i 1900),
   ("RC1_attackIntervalTime", .i 5), ("RC1_startDefenceTime", .i 1870),
   ("RC1_stopDefenceTime", .i 1900), ("RC1_defenceIntervalTime", .i 5),
   ("planetName", .s "Mars"), ("blackListRival", .l []), ("whiteListMember", .l []),
   ("kickAllToggle", .b true), ("standOnEnemy", .b true), ("actionOnEnemy", .b false),
   ("aiChatToggle", .b false), ("dualRCToggle", .b true), ("aiPilotToggle", .b false),
   ("timestamp", .i 0),
   ("RC2_startAttackTime", .i 1875), ("RC2_stopAttackTime", .i 1900),
   ("RC2_attackIntervalTime", .i 5), ("RC2_startDefenceTime", .i 1850),
   ("RC2_stopDefenceTime", .i 1925), ("RC2_defenceIntervalTime", .i 5)]

/-- An update body whose primary timing field is a non-numeric string. -/
def badIntBody : Data := [("RC1_startAttackTime1", .s "abc")]

/-- Python `str.isdigit` (ASCII digits, nonempty). -/
def pyIsDigit (s : String) : Bool := allDigits s.data

/-- Python `str.split()` with no separator: split on whitespace runs,
dropping empty tokens. -/
def splitWsAux : List Char → List Char → List String
  | [], [] => []
  | [], acc => [⟨acc.reverse⟩]
  | c :: cs, acc =>
    if pyIsSpace c then
      match acc with
      | [] => splitWsAux cs []
      | _ => ⟨acc.reverse⟩ :: splitWsAux cs []
    else splitWsAux cs (c :: acc)

/-- Python `s.split()` (whitespace, empties dropped). -/
def pySplitWs (s : String) : List String := splitWsAux s.data []

/-- Environment of one Termination Engine invocation for a slot: the outcome
of each external command it runs.  `Option.none` models the command raising
(timeout or other `subprocess` failure). -/
structure KillEnv where
  /-- `pm2 delete galaxy_<n> --force` raises: the outer handler catches it
  and the remaining strategies are skipped. -/
  pm2DeleteFails : Bool
  /-- stdout of `pgrep -f galaxy_<n>`; `Option.none` = the call raised. -/
  pgrepOut : Option String
  /-- lines of `ps aux` stdout; `Option.none` = the call raised or returned
  a nonzero code. -/
  psLines : Option (List String)
  /-- whether `os.kill(pid, SIGKILL)` raises for a given pid. -/
  killFails : Nat → Bool
  /-- `pm2 flush` raises; caught by the outer handler after the kill list is
  complete, so it cannot change the returned list. -/
  pm2FlushFails : Bool

/-- Strategy 2 of `nuclear_kill` (app.py lines 128-140): parse the pgrep
output into pids (`p.strip().isdigit()` filter, `int(p)`), SIGKILL each, and
collect the pids whose kill succeeded. -/
def strategyPgrep (env : KillEnv) : List Nat :=
  match env.pgrepOut with
  | Option.none => []
  | some out =>
    if pyStrip out != "" then
      ((pySplitChar '\n' (pyStrip out)).filter (fun p => pyIsDigit (pyStrip p))).filterMap
        (fun p =>
          if env.killFails (natOfDigits (pyStrip p).data) then Option.none
          else some (natOfDigits (pyStrip p).data))
    else []

/-- One iteration of strategy 3 (lines 143-157): a ps line whose text
contains `galaxy_<n>` together with `node` or `pm2` has its second
whitespace token parsed as a pid and killed; the pid is collected when the
kill succeeded. -/
def psLineKill (env : KillEnv) (n : Nat) (line : String) : Option Nat :=
  if pyIn ("galaxy_" ++ toString n) line && (pyIn "node" line || pyIn "pm2" line) then
    match (pySplitWs line).get? 1 with
    | some p =>
      if pyIsDigit p then
        if env.killFails (natOfDigits p.data) then Option.none
        else some (natOfDigits p.data)
      else Option.none
    | Option.none => Option.none
  else Option.none

/-- Strategy 3 over the whole ps output. -/
def strategyPs (env : KillEnv) (n : Nat) : List Nat :=
  match env.psLines with
  | Option.none => []
  | some lines => lines.filterMap (psLineKill env n)

/-- The engine `nuclear_kill` (app.py lines 118-165): the multi-strategy Termination
Engine.  It is total — every strategy failure is swallowed.  When the
initial `pm2 delete` raises, the outer handler catches it and the function
returns the (still empty) kill list; a `pm2 flush` failure occurs after the
list is complete and cannot alter it. -/
def nuclear_kill (env : KillEnv) (n : Nat) : List Nat :=
  if env.pm2DeleteFails then []
  else strategyPgrep env ++ strategyPs env n

/-- No process of slot `n` is alive in `env`: pgrep finds nothing (empty
stdout) and no ps line matches the worker's identifying pattern. -/
def slotDead (env : KillEnv) (n : Nat) : Bool :=
  (match env.pgrepOut with
   | Option.none => true
   | some out => pyStrip out == "") &&
  (match env.psLines with
   | Option.none => true
   | some lines =>
     lines.all (fun line =>
       !(pyIn ("galaxy_" ++ toString n) line && (pyIn "node" line || pyIn "pm2" line))))

/-- An environment in which nothing related to slot 2 is alive. -/
def deadEnv : KillEnv :=
  ⟨false, some "", some ["root 42 /usr/bin/other"], fun _ => false, false⟩

/-- The `active_connections` registry: slot → session id, insertion order
(Python dict iteration order). -/
abbrev Connections := List (Nat × String)

/-- The `disconnect` handler (app.py lines 191-199): walk the mappings in
order, delete the first one whose session id matches, then `break`. -/
def handle_disconnect : Connections → String → Connections
  | [], _ => []
  | (k, s) :: rest, sid =>
    if s == sid then rest else (k, s) :: handle_disconnect rest sid

/-- Python `str.replace(pat, rep)` over character lists: replace every
non-overlapping occurrence of `pat`, left to right (used only with a
nonempty pattern, as in the source's `.replace('galaxy_', '')`). -/
def replaceAll (pat rep : List Char) : List Char → List Char
  | [] => []
  | c :: cs =>
    if h : leadsWith pat (c :: cs) = true ∧ pat ≠ [] then
      rep ++ replaceAll pat rep (List.drop pat.length (c :: cs))
    else c :: replaceAll pat rep cs
termination_by l => l.length
decreasing_by
  · obtain ⟨-, hpat⟩ := h
    cases pat with
    | nil => exact absurd rfl hpat
    | cons p ps => simp [List.length_drop]; omega
  · simp

/-- Python `s.replace(pat, rep)`. -/
def pyReplace (pat rep s : String) : String := ⟨replaceAll pat.data rep.data s.data⟩

/-- Python `s.startswith(pre)`. -/
def pyStartsWith (pre s : String) : Bool := leadsWith pre.data s.data

/-- One entry of the `pm2 jlist` inventory, restricted to the fields the
status handler reads; optional fields model `.get` on possibly-missing JSON
keys. -/
structure PmProc where
  /-- `proc.get('name', '')`. -/
  name : String
  /-- `proc.get('pm2_env', {}).get('status')`. -/
  pmStatus : Option String
  /-- `proc.get('pid')`. -/
  pid : Option Int
  /-- `proc.get('monit', {}).get('cpu', 0)` before the 0 default. -/
  cpu : Option Int
  /-- `proc.get('monit', {}).get('memory', 0)` before the 0 default. -/
  memory : Option Int
deriving DecidableEq, Repr

/-- Per-slot entry of the aggregated status snapshot. -/
structure SlotStatus where
  running : Bool
  pid : Option Int
  status : String
  cpu : Int
  memory : Int
deriving DecidableEq, Repr

/-- The dict comprehension of `get_status` (lines 386-387) followed by
`pm2_map.get(str(form_num))`: among processes whose name starts with
`galaxy_`, keyed by the name with every `galaxy_` occurrence removed; later
entries overwrite earlier ones, so the LAST match wins. -/
def pm2MapGet (procs : List PmProc) (key : String) : Option PmProc :=
  (procs.filter (fun p =>
    pyStartsWith "galaxy_" p.name && (pyReplace "galaxy_" "" p.name == key))).getLast?

/-- The per-slot snapshot entry (lines 390-400).  A missing inventory entry
(or a missing `pm2_env`/`status` key) yields running=false and the
`'stopped'` default status. -/
def slotStatusOf (procs : List PmProc) (n : Nat) : SlotStatus :=
  match pm2MapGet procs (toString n) with
  | Option.none =>
    { running := false, pid := Option.none, status := "stopped", cpu := 0, memory := 0 }
  | some p =>
    { running := p.pmStatus == some "online"
      pid := p.pid
      status := p.pmStatus.getD "stopped"
      cpu := p.cpu.getD 0
      memory := p.memory.getD 0 }

/-- Helper `get_pm2_status` (lines 375-383): the supervisor inventory, `[]` on any
failure, timeout, nonzero exit or unparsable output (all modelled by
`Option.none`). -/
def get_pm2_status (sup : Option (List PmProc)) : List PmProc := sup.getD []

/-- The five-slot snapshot, keyed `form_1` .. `form_5`. -/
def buildStatus (procs : List PmProc) : List (String × SlotStatus) :=
  (List.range 5).map (fun i => ("form_" ++ toString (i + 1), slotStatusOf procs (i + 1)))

/-- The `status_cache` global: last rebuild time and snapshot. -/
structure StatusCache where
  time : ℚ
  data : List (String × SlotStatus)
deriving DecidableEq

/-- The `/status` handler (app.py lines 366-406): within 0.3 s of the last
rebuild return the cached snapshot and leave the cache untouched; otherwise
query the supervisor, rebuild all five slots, store the snapshot together
with `now`, and return it. -/
def get_status (cache : StatusCache) (now : ℚ) (sup : Option (List PmProc)) :
    List (String × SlotStatus) × StatusCache :=
  if now - cache.time < 3/10 then (cache.data, cache)
  else (buildStatus (get_pm2_status sup), ⟨now, buildStatus (get_pm2_status sup)⟩)

/-- Inversion for a successful `Except` bind. -/
theorem except_bind_ok {α β : Type} {x : Except PyErr α} {f : α → Except PyErr β} {b : β}
    (h : (x >>= f) = .ok b) : ∃ a, x = .ok a ∧ f a = .ok b := by
  cases x with
  | ok a => exact ⟨a, rfl, h⟩
  | error e => exact Except.noConfusion h

/-- C2: the boolean coercion `string_to_bool` behaves as specified: a native
boolean passes through unchanged; a string is sent to `true` exactly when its
lower-cased, stripped form is `"true"`, `"1"`, `"yes"` or `"on"` (the spec's
sample vectors included); every other value is converted to its Python
truthiness. -/
theorem galaxy_string_to_bool_coercion :
    (∀ v : Bool, string_to_bool (.b v) = v) ∧
    (∀ v : String, string_to_bool (.s v) = true ↔
      (pyStrip (pyLower v) = "true" ∨ pyStrip (pyLower v) = "1" ∨
       pyStrip (pyLower v) = "yes" ∨ pyStrip (pyLower v) = "on")) ∧
    (string_to_bool (.s "TRUE") = true ∧ string_to_bool (.s "1") = true ∧
     string_to_bool (.s "yes") = true ∧ string_to_bool (.s "On") = true ∧
     string_to_bool (.s "false") = false ∧ string_to_bool (.s "0") = false ∧
     string_to_bool (.s "") = false ∧ string_to_bool (.s "no") = false) ∧
    (∀ v : Int, string_to_bool (.i v) = pyTruthy (.i v)) ∧
    (∀ v : List PyVal, string_to_bool (.l v) = pyTruthy (.l v)) ∧
    (string_to_bool .null = pyTruthy .null) := by
  refine ⟨fun v => rfl, fun v => ?_, by decide, fun v => rfl, fun v => rfl, rfl⟩
  simp [string_to_bool]
  tauto

/-- A successful secondary-block read yields exactly the six-field block. -/
theorem wcSecondary_ok {d : Data} {n : Nat} {cfg : Config}
    (h : wcSecondary d n = .ok cfg) :
    ∃ u1 u2 u3 u4 u5 u6, cfg = rc2Block u1 u2 u3 u4 u5 u6 := by
  unfold wcSecondary at h
  obtain ⟨u1, g1, h⟩ := except_bind_ok h
  obtain ⟨u2, g2, h⟩ := except_bind_ok h
  obtain ⟨u3, g3, h⟩ := except_bind_ok h
  obtain ⟨u4, g4, h⟩ := except_bind_ok h
  obtain ⟨u5, g5, h⟩ := except_bind_ok h
  obtain ⟨u6, g6, h⟩ := except_bind_ok h
  simp only [pure, Except.pure, Except.ok.injEq] at h
  exact ⟨u1, u2, u3, u4, u5, u6, h.symm⟩

/-- A successful defaulted secondary-block read yields exactly the block. -/
theorem ucSecondary_ok {d : Data} {n : Nat} {cfg : Config}
    (h : ucSecondary d n = .ok cfg) :
    ∃ u1 u2 u3 u4 u5 u6, cfg = rc2Block u1 u2 u3 u4 u5 u6 := by
  unfold ucSecondary at h
  obtain ⟨u1, g1, h⟩ := except_bind_ok h
  obtain ⟨u2, g2, h⟩ := except_bind_ok h
  obtain ⟨u3, g3, h⟩ := except_bind_ok h
  obtain ⟨u4, g4, h⟩ := except_bind_ok h
  obtain ⟨u5, g5, h⟩ := except_bind_ok h
  obtain ⟨u6, g6, h⟩ := except_bind_ok h
  simp only [pure, Except.pure, Except.ok.injEq] at h
  exact ⟨u1, u2, u3, u4, u5, u6, h.symm⟩

/-- Successful runs of `write_config_instant` produce exactly the base dict,
an all-or-nothing secondary block governed by `dualRCToggle`, and the
trailing `lastUpdated` entry. -/
theorem write_config_instant_shape {d : Data} {n : Nat} {ts : Int} {cfg : Config}
    (h : write_config_instant d n ts = .ok cfg) :
    ∃ rc1 rc2 t1 t2 t3 t4 t5 t6 pn bl wl kat soe aoe act drc apt rc2b,
      ((string_to_bool drc = true ∧
          ∃ u1 u2 u3 u4 u5 u6, rc2b = rc2Block u1 u2 u3 u4 u5 u6) ∨
       (string_to_bool drc = false ∧ rc2b = ([] : Config))) ∧
      cfg = wcBase rc1 rc2 t1 t2 t3 t4 t5 t6 pn bl wl kat soe aoe act drc apt ++
            rc2b ++ [("lastUpdated", PyVal.i ts)] := by
  unfold write_config_instant at h
  obtain ⟨rc1, h1, h⟩ := except_bind_ok h
  obtain ⟨rc2, h2, h⟩ := except_bind_ok h
  obtain ⟨t1, h3, h⟩ := except_bind_ok h
  obtain ⟨t2, h4, h⟩ := except_bind_ok h
  obtain ⟨t3, h5, h⟩ := except_bind_ok h
  obtain ⟨t4, h6, h⟩ := except_bind_ok h
  obtain ⟨t5, h7, h⟩ := except_bind_ok h
  obtain ⟨t6, h8, h⟩ := except_bind_ok h
  obtain ⟨pn, h9, h⟩ := except_bind_ok h
  obtain ⟨bl, h10, h⟩ := except_bind_ok h
  obtain ⟨wl, h11, h⟩ := except_bind_ok h
  obtain ⟨kat, h12, h⟩ := except_bind_ok h
  obtain ⟨soe, h13, h⟩ := except_bind_ok h
  obtain ⟨aoe, h14, h⟩ := except_bind_ok h
  obtain ⟨act, h15, h⟩ := except_bind_ok h
  obtain ⟨drc, h16, h⟩ := except_bind_ok h
  obtain ⟨apt, h17, h⟩ := except_bind_ok h
  obtain ⟨rc2b, hif, h⟩ := except_bind_ok h
  simp only [pure, Except.pure, Except.ok.injEq] at h
  refine ⟨rc1, rc2, t1, t2, t3, t4, t5, t6, pn, bl, wl, kat, soe, aoe, act, drc, apt,
    rc2b, ?_, h.symm⟩
  by_cases hd : string_to_bool drc
  · rw [if_pos hd] at hif
    exact Or.inl ⟨hd, wcSecondary_ok hif⟩
  · rw [if_neg hd] at hif
    simp only [pure, Except.pure, Except.ok.injEq] at hif
    exact Or.inr ⟨Bool.of_not_eq_true hd, hif.symm⟩

/-- Successful runs of the `/update` config builder produce the defaulted
base dict followed by an all-or-nothing secondary block. -/
theorem update_config_shape {d : Data} {n : Nat} {ts : Int} {cfg : Config}
    (h : update_config d n ts = .ok cfg) :
    ∃ t1 t2 t3 t4 t5 t6 rc2b,
      ((string_to_bool (dgetD d ("dualRCToggle" ++ toString n) (.b true)) = true ∧
          ∃ u1 u2 u3 u4 u5 u6, rc2b = rc2Block u1 u2 u3 u4 u5 u6) ∨
       (string_to_bool (dgetD d ("dualRCToggle" ++ toString n) (.b true)) = false ∧
          rc2b = ([] : Config))) ∧
      cfg = ucBase d n t1 t2 t3 t4 t5 t6 ts ++ rc2b := by
  unfold update_config at h
  obtain ⟨t1, h1, h⟩ := except_bind_ok h
  obtain ⟨t2, h2, h⟩ := except_bind_ok h
  obtain ⟨t3, h3, h⟩ := except_bind_ok h
  obtain ⟨t4, h4, h⟩ := except_bind_ok h
  obtain ⟨t5, h5, h⟩ := except_bind_ok h
  obtain ⟨t6, h6, h⟩ := except_bind_ok h
  obtain ⟨rc2b, hif, h⟩ := except_bind_ok h
  simp only [pure, Except.pure, Except.ok.injEq] at h
  refine ⟨t1, t2, t3, t4, t5, t6, rc2b, ?_, h.symm⟩
  by_cases hd : string_to_bool (dgetD d ("dualRCToggle" ++ toString n) (.b true))
  · rw [if_pos hd] at hif
    exact Or.inl ⟨hd, ucSecondary_ok hif⟩
  · rw [if_neg hd] at hif
    simp only [pure, Except.pure, Except.ok.injEq] at hif
    exact Or.inr ⟨Bool.of_not_eq_true hd, hif.symm⟩

/-- C1: for every slot in [1,5] and every input mapping, any config record
successfully produced for persistence — by the file-write path
(`write_config_instant`) or by the update path (`update_config`) — contains
the six RC2-prefixed secondary timing fields iff its `dualRCToggle` field is
`true`, and contains none of them (absent, not zeroed) when it is `false`. -/
theorem galaxy_secondary_block_iff_dualrc (d : Data) (n : Nat) (ts : Int) (cfg : Config)
    (_hn : 1 ≤ n ∧ n ≤ 5)
    (h : write_config_instant d n ts = .ok cfg ∨ update_config d n ts = .ok cfg) :
    (alookup cfg "dualRCToggle" = some (.b true) →
       ∀ k ∈ secondaryTimingKeys, (alookup cfg k).isSome = true) ∧
    (alookup cfg "dualRCToggle" = some (.b false) →
       ∀ k ∈ secondaryTimingKeys, alookup cfg k = Option.none) := by
  rcases h with h | h
  · obtain ⟨rc1, rc2, t1, t2, t3, t4, t5, t6, pn, bl, wl, kat, soe, aoe, act, drc, apt,
      rc2b, hblk, rfl⟩ := write_config_instant_shape h
    rcases hblk with ⟨hd, u1, u2, u3, u4, u5, u6, rfl⟩ | ⟨hd, rfl⟩
    · constructor
      · intro _ k hk
        simp only [secondaryTimingKeys, List.mem_cons, List.not_mem_nil, or_false] at hk
        rcases hk with rfl | rfl | rfl | rfl | rfl | rfl <;> rfl
      · intro hdual
        have hx : some (PyVal.b (string_to_bool drc)) = some (PyVal.b false) := hdual
        simp only [Option.some.injEq, PyVal.b.injEq] at hx
        rw [hd] at hx
        exact absurd hx (by simp)
    · constructor
      · intro hdual
        have hx : some (PyVal.b (string_to_bool drc)) = some (PyVal.b true) := hdual
        simp only [Option.some.injEq, PyVal.b.injEq] at hx
        rw [hd] at hx
        exact absurd hx (by simp)
      · intro _ k hk
        simp only [secondaryTimingKeys, List.mem_cons, List.not_mem_nil, or_false] at hk
        rcases hk with rfl | rfl | rfl | rfl | rfl | rfl <;> rfl
  · obtain ⟨t1, t2, t3, t4, t5, t6, rc2b, hblk, rfl⟩ := update_config_shape h
    rcases hblk with ⟨hd, u1, u2, u3, u4, u5, u6, rfl⟩ | ⟨hd, rfl⟩
    · constructor
      · intro _ k hk
        simp only [secondaryTimingKeys, List.mem_cons, List.not_mem_nil, or_false] at hk
        rcases hk with rfl | rfl | rfl | rfl | rfl | rfl <;> rfl
      · intro hdual
        have hx : some (PyVal.b (string_to_bool (dgetD d ("dualRCToggle" ++ toString n) (.b true))))
            = some (PyVal.b false) := hdual
        simp only [Option.some.injEq, PyVal.b.injEq] at hx
        rw [hd] at hx
        exact absurd hx (by simp)
    · constructor
      · intro hdual
        have hx : some (PyVal.b (string_to_bool (dgetD d ("dualRCToggle" ++ toString n) (.b true))))
            = some (PyVal.b true) := hdual
        simp only [Option.some.injEq, PyVal.b.injEq] at hx
        rw [hd] at hx
        exact absurd hx (by simp)
      · intro _ k hk
        simp only [secondaryTimingKeys, List.mem_cons, List.not_mem_nil, or_false] at hk
        rcases hk with rfl | rfl | rfl | rfl | rfl | rfl <;> rfl

/-- Witness for C1 at a concrete input. -/
theorem galaxy_secondary_block_iff_dualrc_witness :
    ((1 : Nat) ≤ 1 ∧ (1 : Nat) ≤ 5) ∧
    (write_config_instant sampleData 1 0 = .ok sampleCfg ∨
      update_config sampleData 1 0 = .ok sampleCfg) ∧
    ((alookup sampleCfg "dualRCToggle" = some (.b true) →
        ∀ k ∈ secondaryTimingKeys, (alookup sampleCfg k).isSome = true) ∧
     (alookup sampleCfg "dualRCToggle" = some (.b false) →
        ∀ k ∈ secondaryTimingKeys, alookup sampleCfg k = Option.none)) :=
  ⟨⟨le_refl 1, by omega⟩, Or.inl rfl,
    galaxy_secondary_block_iff_dualrc sampleData 1 0 sampleCfg
      ⟨le_refl 1, by omega⟩ (Or.inl rfl)⟩

/-- Reducing a successful bind. -/
theorem except_ok_bind {α β : Type} (a : α) (f : α → Except PyErr β) :
    ((Except.ok a : Except PyErr α) >>= f) = f a := rfl

/-- Reducing a failed bind. -/
theorem except_error_bind {α β : Type} (e : PyErr) (f : α → Except PyErr β) :
    ((Except.error e : Except PyErr α) >>= f) = .error e := rfl

/-- C3 counterexample: an update of slot 3 with `dualRCToggle=true` and all
six secondary timing fields missing raises no error at all — the config
build succeeds with defaults substituted, and with a live channel
acknowledging, the handler reports a successful websocket update. -/
theorem galaxy_update_missing_rc2_cex :
    update_config updateBody3 3 0 = .ok updateCfg3 ∧
    (update_galaxy updateBody3 3 true true [] 0).result = .updatedWebsocket :=
  ⟨rfl, rfl⟩

/-- C3 amended: when `dualRCToggle` coerces true and the secondary timing
fields are absent from the body, the update path does not raise — it
substitutes the in-code defaults 1875/1900/5/1850/1925/5 into the produced
config record. -/
theorem galaxy_update_missing_rc2_defaults (d : Data) (n : Nat) (ts : Int) (cfg : Config)
    (h : update_config d n ts = .ok cfg)
    (h1 : alookup d ("RC2_startAttackTime" ++ toString n) = Option.none)
    (h2 : alookup d ("RC2_stopAttackTime" ++ toString n) = Option.none)
    (h3 : alookup d ("RC2_attackIntervalTime" ++ toString n) = Option.none)
    (h4 : alookup d ("RC2_startDefenceTime" ++ toString n) = Option.none)
    (h5 : alookup d ("RC2_stopDefenceTime" ++ toString n) = Option.none)
    (h6 : alookup d ("RC2_defenceIntervalTime" ++ toString n) = Option.none)
    (hdual : alookup cfg "dualRCToggle" = some (.b true)) :
    alookup cfg "RC2_startAttackTime" = some (.i 1875) ∧
    alookup cfg "RC2_stopAttackTime" = some (.i 1900) ∧
    alookup cfg "RC2_attackIntervalTime" = some (.i 5) ∧
    alookup cfg "RC2_startDefenceTime" = some (.i 1850) ∧
    alookup cfg "RC2_stopDefenceTime" = some (.i 1925) ∧
    alookup cfg "RC2_defenceIntervalTime" = some (.i 5) := by
  have hsec : ucSecondary d n = .ok (rc2Block 1875 1900 5 1850 1925 5) := by
    simp only [ucSecondary, dgetIntD, dgetD, h1, h2, h3, h4, h5, h6, Option.getD,
      pyInt, except_ok_bind]
    rfl
  unfold update_config at h
  obtain ⟨t1, g1, h⟩ := except_bind_ok h
  obtain ⟨t2, g2, h⟩ := except_bind_ok h
  obtain ⟨t3, g3, h⟩ := except_bind_ok h
  obtain ⟨t4, g4, h⟩ := except_bind_ok h
  obtain ⟨t5, g5, h⟩ := except_bind_ok h
  obtain ⟨t6, g6, h⟩ := except_bind_ok h
  obtain ⟨rc2b, hif, h⟩ := except_bind_ok h
  simp only [pure, Except.pure, Except.ok.injEq] at h
  subst h
  have hx : some (PyVal.b (string_to_bool (dgetD d ("dualRCToggle" ++ toString n) (.b true))))
      = some (PyVal.b true) := hdual
  simp only [Option.some.injEq, PyVal.b.injEq] at hx
  rw [if_pos hx] at hif
  rw [hsec] at hif
  simp only [Except.ok.injEq] at hif
  subst hif
  exact ⟨rfl, rfl, rfl, rfl, rfl, rfl⟩

/-- Witness for the amended C3 theorem at a concrete input. -/
theorem galaxy_update_missing_rc2_defaults_witness :
    update_config updateBody3 3 0 = .ok updateCfg3 ∧
    (alookup updateCfg3 "RC2_startAttackTime" = some (.i 1875) ∧
     alookup updateCfg3 "RC2_stopAttackTime" = some (.i 1900) ∧
     alookup updateCfg3 "RC2_attackIntervalTime" = some (.i 5) ∧
     alookup updateCfg3 "RC2_startDefenceTime" = some (.i 1850) ∧
     alookup updateCfg3 "RC2_stopDefenceTime" = some (.i 1925) ∧
     alookup updateCfg3 "RC2_defenceIntervalTime" = some (.i 5)) :=
  ⟨rfl, galaxy_update_missing_rc2_defaults updateBody3 3 0 updateCfg3
    rfl rfl rfl rfl rfl rfl rfl rfl⟩

/-- C4 counterexample: starting slot 1 with the worker script absent does
return the 404 script-missing error and submits no background start — but
state has already been mutated: the config built from the body sits in the
config cache (and its file write was scheduled) before the existence check
ran. -/
theorem galaxy_start_missing_script_cex :
    (start_galaxy sampleData 1 false [] 0).result = .scriptMissing "galaxy_1.js" ∧
    (start_galaxy sampleData 1 false [] 0).bgStartSubmitted = false ∧
    (start_galaxy sampleData 1 false [] 0).cache = [(1, sampleCfg)] ∧
    [(1, sampleCfg)] ≠ ([] : Cache) :=
  ⟨rfl, rfl, rfl, by simp⟩

/-- C4 amended: with the worker executable absent, `start` returns the
script-missing error and never submits the background task that records a
process handle — but only after `write_config_instant` has already cached
the config (and scheduled its file write), so state IS mutated before the
error returns. -/
theorem galaxy_start_missing_script (d : Data) (n : Nat) (cache : Cache) (ts : Int)
    (cfg : Config) (hn : 1 ≤ n ∧ n ≤ 5) (h : write_config_instant d n ts = .ok cfg) :
    start_galaxy d n false cache ts =
      ⟨.scriptMissing ("galaxy_" ++ toString n ++ ".js"), cacheSet cache n cfg, false⟩ := by
  unfold start_galaxy
  rw [if_pos hn, h]
  rfl

/-- Witness for the amended C4 theorem at a concrete input. -/
theorem galaxy_start_missing_script_witness :
    (((1:Nat) ≤ 1 ∧ (1:Nat) ≤ 5) ∧ write_config_instant sampleData 1 0 = .ok sampleCfg) ∧
    start_galaxy sampleData 1 false [] 0 =
      ⟨.scriptMissing ("galaxy_" ++ toString 1 ++ ".js"), cacheSet [] 1 sampleCfg, false⟩ :=
  ⟨⟨⟨by omega, by omega⟩, rfl⟩,
    galaxy_start_missing_script sampleData 1 [] 0 sampleCfg ⟨by omega, by omega⟩ rfl⟩

/-- C6 counterexample: a non-numeric value makes the update fail, but the
error message is Python's `int()` ValueError — it quotes the offending
VALUE (`'abc'`) and nowhere names the offending FIELD. -/
theorem galaxy_bad_int_cex :
    update_galaxy badIntBody 1 false false [] 0 =
      ⟨.internalError "invalid literal for int() with base 10: 'abc'", []⟩ ∧
    pyIn "RC1_startAttackTime" "invalid literal for int() with base 10: 'abc'" = false ∧
    pyIn "abc" "invalid literal for int() with base 10: 'abc'" = true :=
  ⟨rfl, rfl, rfl⟩

/-- A numeric field holding a non-parsing string makes its defaulted read
fail with the `int()` ValueError quoting that string. -/
theorem dgetIntD_bad (dflt : Int) {d : Data} {k : String} {v : String}
    (hv : alookup d k = some (.s v)) (hbad : pyIntOfString v = Option.none) :
    dgetIntD d k dflt =
      .error (.valueError ("invalid literal for int() with base 10: '" ++ v ++ "'")) := by
  simp [dgetIntD, dgetD, hv, pyInt, hbad]

/-- A defaulted numeric read on a field that is neither a list nor None
either succeeds or fails with the `int()` ValueError quoting the field's
non-parsing string value. -/
theorem dgetIntD_cases (d : Data) (k : String) (dflt : Int)
    (hshape : numericShaped d k = true) :
    (∃ m, dgetIntD d k dflt = .ok m) ∨
    (∃ v, alookup d k = some (.s v) ∧ pyIntOfString v = Option.none ∧
      dgetIntD d k dflt =
        .error (.valueError ("invalid literal for int() with base 10: '" ++ v ++ "'"))) := by
  unfold numericShaped at hshape
  cases hl : alookup d k with
  | none => exact Or.inl ⟨dflt, by simp [dgetIntD, dgetD, hl, pyInt]⟩
  | some v =>
    cases v with
    | s str =>
      cases hp : pyIntOfString str with
      | none => exact Or.inr ⟨str, rfl, hp, by simp [dgetIntD, dgetD, hl, pyInt, hp]⟩
      | some m => exact Or.inl ⟨m, by simp [dgetIntD, dgetD, hl, pyInt, hp]⟩
    | b bv => exact Or.inl ⟨if bv then 1 else 0, by simp [dgetIntD, dgetD, hl, pyInt]⟩
    | i iv => exact Or.inl ⟨iv, by simp [dgetIntD, dgetD, hl, pyInt]⟩
    | l xs => rw [hl] at hshape; simp at hshape
    | null => rw [hl] at hshape; simp at hshape

/-- When some evaluated numeric field of the update body holds a non-parsing
string (and no numeric field holds a list or None), the config build fails
with the `int()` ValueError quoting the value of one such field. -/
theorem update_config_bad_numeric (d : Data) (n : Nat) (ts : Int)
    (hclean : ∀ k ∈ evaluatedNumericKeys d n, numericShaped d (k ++ toString n) = true)
    (hbad : ∃ k ∈ evaluatedNumericKeys d n, ∃ v,
      alookup d (k ++ toString n) = some (.s v) ∧ pyIntOfString v = Option.none) :
    ∃ k ∈ evaluatedNumericKeys d n, ∃ v,
      alookup d (k ++ toString n) = some (.s v) ∧ pyIntOfString v = Option.none ∧
      update_config d n ts =
        .error (.valueError ("invalid literal for int() with base 10: '" ++ v ++ "'")) := by
  have p1 : "RC1_startAttackTime" ∈ evaluatedNumericKeys d n := by
    simp [evaluatedNumericKeys, primaryTimingKeys]
  have p2 : "RC1_stopAttackTime" ∈ evaluatedNumericKeys d n := by
    simp [evaluatedNumericKeys, primaryTimingKeys]
  have p3 : "RC1_attackIntervalTime" ∈ evaluatedNumericKeys d n := by
    simp [evaluatedNumericKeys, primaryTimingKeys]
  have p4 : "RC1_startDefenceTime" ∈ evaluatedNumericKeys d n := by
    simp [evaluatedNumericKeys, primaryTimingKeys]
  have p5 : "RC1_stopDefenceTime" ∈ evaluatedNumericKeys d n := by
    simp [evaluatedNumericKeys, primaryTimingKeys]
  have p6 : "RC1_defenceIntervalTime" ∈ evaluatedNumericKeys d n := by
    simp [evaluatedNumericKeys, primaryTimingKeys]
  rcases dgetIntD_cases d ("RC1_startAttackTime" ++ toString n) 1870 (hclean _ p1) with
    ⟨m1, hm1⟩ | ⟨v, hv, hpv, herr⟩
  · rcases dgetIntD_cases d ("RC1_stopAttackTime" ++ toString n) 1900 (hclean _ p2) with
      ⟨m2, hm2⟩ | ⟨v, hv, hpv, herr⟩
    · rcases dgetIntD_cases d ("RC1_attackIntervalTime" ++ toString n) 5 (hclean _ p3) with
        ⟨m3, hm3⟩ | ⟨v, hv, hpv, herr⟩
      · rcases dgetIntD_cases d ("RC1_startDefenceTime" ++ toString n) 1870 (hclean _ p4) with
          ⟨m4, hm4⟩ | ⟨v, hv, hpv, herr⟩
        · rcases dgetIntD_cases d ("RC1_stopDefenceTime" ++ toString n) 1900 (hclean _ p5) with
            ⟨m5, hm5⟩ | ⟨v, hv, hpv, herr⟩
          · rcases dgetIntD_cases d ("RC1_defenceIntervalTime" ++ toString n) 5 (hclean _ p6) with
              ⟨m6, hm6⟩ | ⟨v, hv, hpv, herr⟩
            · cases hcond : string_to_bool (dgetD d ("dualRCToggle" ++ toString n) (.b true)) with
              | false =>
                obtain ⟨k, hk, v, hv, hpv⟩ := hbad
                have hk' : k ∈ primaryTimingKeys := by
                  simpa [evaluatedNumericKeys, hcond] using hk
                simp only [primaryTimingKeys, List.mem_cons, List.not_mem_nil, or_false] at hk'
                rcases hk' with rfl | rfl | rfl | rfl | rfl | rfl
                · rw [dgetIntD_bad 1870 hv hpv] at hm1; exact Except.noConfusion hm1
                · rw [dgetIntD_bad 1900 hv hpv] at hm2; exact Except.noConfusion hm2
                · rw [dgetIntD_bad 5 hv hpv] at hm3; exact Except.noConfusion hm3
                · rw [dgetIntD_bad 1870 hv hpv] at hm4; exact Except.noConfusion hm4
                · rw [dgetIntD_bad 1900 hv hpv] at hm5; exact Except.noConfusion hm5
                · rw [dgetIntD_bad 5 hv hpv] at hm6; exact Except.noConfusion hm6
              | true =>
                have q1 : "RC2_startAttackTime" ∈ evaluatedNumericKeys d n := by
                  simp [evaluatedNumericKeys, secondaryTimingKeys, hcond]
                have q2 : "RC2_stopAttackTime" ∈ evaluatedNumericKeys d n := by
                  simp [evaluatedNumericKeys, secondaryTimingKeys, hcond]
                have q3 : "RC2_attackIntervalTime" ∈ evaluatedNumericKeys d n := by
                  simp [evaluatedNumericKeys, secondaryTimingKeys, hcond]
                have q4 : "RC2_startDefenceTime" ∈ evaluatedNumericKeys d n := by
                  simp [evaluatedNumericKeys, secondaryTimingKeys, hcond]
                have q5 : "RC2_stopDefenceTime" ∈ evaluatedNumericKeys d n := by
                  simp [evaluatedNumericKeys, secondaryTimingKeys, hcond]
                have q6 : "RC2_defenceIntervalTime" ∈ evaluatedNumericKeys d n := by
                  simp [evaluatedNumericKeys, secondaryTimingKeys, hcond]
                rcases dgetIntD_cases d ("RC2_startAttackTime" ++ toString n) 1875 (hclean _ q1)
                  with ⟨w1, hs1⟩ | ⟨v, hv, hpv, herr⟩
                · rcases dgetIntD_cases d ("RC2_stopAttackTime" ++ toString n) 1900 (hclean _ q2)
                    with ⟨w2, hs2⟩ | ⟨v, hv, hpv, herr⟩
                  · rcases dgetIntD_cases d ("RC2_attackIntervalTime" ++ toString n) 5 (hclean _ q3)
                      with ⟨w3, hs3⟩ | ⟨v, hv, hpv, herr⟩
                    · rcases dgetIntD_cases d ("RC2_startDefenceTime" ++ toString n) 1850 (hclean _ q4)
                        with ⟨w4, hs4⟩ | ⟨v, hv, hpv, herr⟩
                      · rcases dgetIntD_cases d ("RC2_stopDefenceTime" ++ toString n) 1925 (hclean _ q5)
                          with ⟨w5, hs5⟩ | ⟨v, hv, hpv, herr⟩
                        · rcases dgetIntD_cases d ("RC2_defenceIntervalTime" ++ toString n) 5 (hclean _ q6)
                            with ⟨w6, hs6⟩ | ⟨v, hv, hpv, herr⟩
                          · obtain ⟨k, hk, v, hv, hpv⟩ := hbad
                            have hk' : k ∈ primaryTimingKeys ∨ k ∈ secondaryTimingKeys := by
                              simpa [evaluatedNumericKeys, hcond] using hk
                            rcases hk' with hk' | hk'
                            · simp only [primaryTimingKeys, List.mem_cons,
                                List.not_mem_nil, or_false] at hk'
                              rcases hk' with rfl | rfl | rfl | rfl | rfl | rfl
                              · rw [dgetIntD_bad 1870 hv hpv] at hm1
                                exact Except.noConfusion hm1
                              · rw [dgetIntD_bad 1900 hv hpv] at hm2
                                exact Except.noConfusion hm2
                              · rw [dgetIntD_bad 5 hv hpv] at hm3
                                exact Except.noConfusion hm3
                              · rw [dgetIntD_bad 1870 hv hpv] at hm4
                                exact Except.noConfusion hm4
                              · rw [dgetIntD_bad 1900 hv hpv] at hm5
                                exact Except.noConfusion hm5
                              · rw [dgetIntD_bad 5 hv hpv] at hm6
                                exact Except.noConfusion hm6
                            · simp only [secondaryTimingKeys, List.mem_cons,
                                List.not_mem_nil, or_false] at hk'
                              rcases hk' with rfl | rfl | rfl | rfl | rfl | rfl
                              · rw [dgetIntD_bad 1875 hv hpv] at hs1
                                exact Except.noConfusion hs1
                              · rw [dgetIntD_bad 1900 hv hpv] at hs2
                                exact Except.noConfusion hs2
                              · rw [dgetIntD_bad 5 hv hpv] at hs3
                                exact Except.noConfusion hs3
                              · rw [dgetIntD_bad 1850 hv hpv] at hs4
                                exact Except.noConfusion hs4
                              · rw [dgetIntD_bad 1925 hv hpv] at hs5
                                exact Except.noConfusion hs5
                              · rw [dgetIntD_bad 5 hv hpv] at hs6
                                exact Except.noConfusion hs6
                          · refine ⟨_, q6, v, hv, hpv, ?_⟩
                            have hus : ucSecondary d n = .error (.valueError
                                ("invalid literal for int() with base 10: '" ++ v ++ "'")) := by
                              simp only [ucSecondary, hs1, hs2, hs3, hs4, hs5, herr,
                                except_ok_bind, except_error_bind]
                            simp only [update_config, hm1, hm2, hm3, hm4, hm5, hm6,
                              except_ok_bind]
                            rw [if_pos hcond, hus, except_error_bind]
                        · refine ⟨_, q5, v, hv, hpv, ?_⟩
                          have hus : ucSecondary d n = .error (.valueError
                              ("invalid literal for int() with base 10: '" ++ v ++ "'")) := by
                            simp only [ucSecondary, hs1, hs2, hs3, hs4, herr,
                              except_ok_bind, except_error_bind]
                          simp only [update_config, hm1, hm2, hm3, hm4, hm5, hm6,
                            except_ok_bind]
                          rw [if_pos hcond, hus, except_error_bind]
                      · refine ⟨_, q4, v, hv, hpv, ?_⟩
                        have hus : ucSecondary d n = .error (.valueError
                            ("invalid literal for int() with base 10: '" ++ v ++ "'")) := by
                          simp only [ucSecondary, hs1, hs2, hs3, herr,
                            except_ok_bind, except_error_bind]
                        simp only [update_config, hm1, hm2, hm3, hm4, hm5, hm6,
                          except_ok_bind]
                        rw [if_pos hcond, hus, except_error_bind]
                    · refine ⟨_, q3, v, hv, hpv, ?_⟩
                      have hus : ucSecondary d n = .error (.valueError
                          ("invalid literal for int() with base 10: '" ++ v ++ "'")) := by
                        simp only [ucSecondary, hs1, hs2, herr,
                          except_ok_bind, except_error_bind]
                      simp only [update_config, hm1, hm2, hm3, hm4, hm5, hm6,
                        except_ok_bind]
                      rw [if_pos hcond, hus, except_error_bind]
                  · refine ⟨_, q2, v, hv, hpv, ?_⟩
                    have hus : ucSecondary d n = .error (.valueError
                        ("invalid literal for int() with base 10: '" ++ v ++ "'")) := by
                      simp only [ucSecondary, hs1, herr, except_ok_bind, except_error_bind]
                    simp only [update_config, hm1, hm2, hm3, hm4, hm5, hm6, except_ok_bind]
                    rw [if_pos hcond, hus, except_error_bind]
                · refine ⟨_, q1, v, hv, hpv, ?_⟩
                  have hus : ucSecondary d n = .error (.valueError
                      ("invalid literal for int() with base 10: '" ++ v ++ "'")) := by
                    simp only [ucSecondary, herr, except_error_bind]
                  simp only [update_config, hm1, hm2, hm3, hm4, hm5, hm6, except_ok_bind]
                  rw [if_pos hcond, hus, except_error_bind]
            · exact ⟨_, p6, v, hv, hpv, by
                simp only [update_config, hm1, hm2, hm3, hm4, hm5, herr,
                  except_ok_bind, except_error_bind]⟩
          · exact ⟨_, p5, v, hv, hpv, by
              simp only [update_config, hm1, hm2, hm3, hm4, herr,
                except_ok_bind, except_error_bind]⟩
        · exact ⟨_, p4, v, hv, hpv, by
            simp only [update_config, hm1, hm2, hm3, herr,
              except_ok_bind, except_error_bind]⟩
      · exact ⟨_, p3, v, hv, hpv, by
          simp only [update_config, hm1, hm2, herr, except_ok_bind, except_error_bind]⟩
    · exact ⟨_, p2, v, hv, hpv, by
        simp only [update_config, hm1, herr, except_ok_bind, except_error_bind]⟩
  · exact ⟨_, p1, v, hv, hpv, by
      simp only [update_config, herr, except_error_bind]⟩

/-- C6 amended: for every slot and every input mapping whose declared
numeric fields hold int-shaped values (no lists, no None), if at least one
numeric field the update path evaluates — the six primary fields always, the
six secondary fields exactly when `dualRCToggle` coerces true — holds a
string that does not parse as an integer, then the update fails with
Python's `int()` ValueError quoting the offending value (the message names
no field), and no config is persisted: the cache is returned unchanged. -/
theorem galaxy_bad_int_update (d : Data) (n : Nat) (wsR wsA : Bool)
    (cache : Cache) (ts : Int) (hn : 1 ≤ n ∧ n ≤ 5)
    (hclean : ∀ k ∈ evaluatedNumericKeys d n, numericShaped d (k ++ toString n) = true)
    (hbad : ∃ k ∈ evaluatedNumericKeys d n, ∃ v,
      alookup d (k ++ toString n) = some (.s v) ∧ pyIntOfString v = Option.none) :
    ∃ k ∈ evaluatedNumericKeys d n, ∃ v,
      alookup d (k ++ toString n) = some (.s v) ∧ pyIntOfString v = Option.none ∧
      update_galaxy d n wsR wsA cache ts =
        ⟨.internalError ("invalid literal for int() with base 10: '" ++ v ++ "'"), cache⟩ := by
  obtain ⟨k, hk, v, hv, hpv, herr⟩ := update_config_bad_numeric d n ts hclean hbad
  refine ⟨k, hk, v, hv, hpv, ?_⟩
  unfold update_galaxy
  rw [if_pos hn, herr]
  rfl

/-- Witness for the amended C6 theorem at a concrete input. -/
theorem galaxy_bad_int_update_witness :
    (((1:Nat) ≤ 1 ∧ (1:Nat) ≤ 5) ∧
     (∀ k ∈ evaluatedNumericKeys badIntBody 1,
        numericShaped badIntBody (k ++ toString 1) = true) ∧
     (∃ k ∈ evaluatedNumericKeys badIntBody 1, ∃ v,
        alookup badIntBody (k ++ toString 1) = some (.s v) ∧
        pyIntOfString v = Option.none)) ∧
    (∃ k ∈ evaluatedNumericKeys badIntBody 1, ∃ v,
      alookup badIntBody (k ++ toString 1) = some (.s v) ∧
      pyIntOfString v = Option.none ∧
      update_galaxy badIntBody 1 false false [] 0 =
        ⟨.internalError ("invalid literal for int() with base 10: '" ++ v ++ "'"), []⟩) :=
  ⟨⟨⟨by omega, by omega⟩, by decide,
    ⟨"RC1_startAttackTime", by decide, "abc", rfl, rfl⟩⟩,
    galaxy_bad_int_update badIntBody 1 false false [] 0 ⟨by omega, by omega⟩ (by decide)
      ⟨"RC1_startAttackTime", by decide, "abc", rfl, rfl⟩⟩

/-- C9 counterexample: the file-write path splits `"a, b"` into the tokens
`"a"` and `" b"` — the second token keeps its leading space, whereas the
claim demands every token trimmed (which would give `"b"`). -/
theorem galaxy_split_no_trim_cex :
    normalizeList (.s "a, b") = .l [.s "a", .s " b"] ∧
    pyStrip " b" = "b" ∧ " b" ≠ "b" :=
  ⟨rfl, rfl, by decide⟩

/-- C9 amended: in the file-write path a comma-separated string is split into
the ordered sequence of its comma tokens with surrounding whitespace
PRESERVED (no trimming), and an already-structured value passes through
unchanged; the update path performs no splitting at all — the list-field
value lands in the record exactly as given (defaulting to `[]`). -/
theorem galaxy_list_normalization :
    (∀ v : String, normalizeList (.s v) = .l ((pySplitChar ',' v).map PyVal.s)) ∧
    (∀ v : List PyVal, normalizeList (.l v) = .l v) ∧
    (∀ v : Bool, normalizeList (.b v) = .b v) ∧
    (∀ v : Int, normalizeList (.i v) = .i v) ∧
    normalizeList .null = .null ∧
    pySplitChar ',' "a, b" = ["a", " b"] ∧
    (∀ (d : Data) (n : Nat) (ts : Int) (cfg : Config), update_config d n ts = .ok cfg →
      alookup cfg "blackListRival" =
        some (dgetD d ("blackListRival" ++ toString n) (.l [])) ∧
      alookup cfg "whiteListMember" =
        some (dgetD d ("whiteListMember" ++ toString n) (.l []))) := by
  refine ⟨fun v => rfl, fun v => rfl, fun v => rfl, fun v => rfl, rfl, rfl, ?_⟩
  intro d n ts cfg h
  obtain ⟨t1, t2, t3, t4, t5, t6, rc2b, _hblk, rfl⟩ := update_config_shape h
  exact ⟨rfl, rfl⟩

/-- Witness for the amended C9 theorem's conditional conjunct. -/
theorem galaxy_list_normalization_witness :
    update_config updateBody3 3 0 = .ok updateCfg3 ∧
    (alookup updateCfg3 "blackListRival" =
       some (dgetD updateBody3 ("blackListRival" ++ toString 3) (.l [])) ∧
     alookup updateCfg3 "whiteListMember" =
       some (dgetD updateBody3 ("whiteListMember" ++ toString 3) (.l []))) :=
  ⟨rfl, galaxy_list_normalization.2.2.2.2.2.2 updateBody3 3 0 updateCfg3 rfl⟩

/-- On a dead slot the Termination Engine returns an empty kill list. -/
theorem nuclear_kill_dead {env : KillEnv} {n : Nat} (h : slotDead env n = true) :
    nuclear_kill env n = [] := by
  unfold slotDead at h
  simp only [Bool.and_eq_true] at h
  obtain ⟨hpg, hps⟩ := h
  have e1 : strategyPgrep env = [] := by
    unfold strategyPgrep
    cases hpo : env.pgrepOut with
    | none => rfl
    | some out =>
      rw [hpo] at hpg
      simp only [beq_iff_eq] at hpg
      simp [hpg]
  have e2 : strategyPs env n = [] := by
    unfold strategyPs
    cases hpl : env.psLines with
    | none => rfl
    | some lines =>
      rw [hpl] at hps
      simp only [List.all_eq_true, Bool.not_eq_true'] at hps
      rw [List.filterMap_eq_nil_iff]
      intro line hline
      unfold psLineKill
      simp [hps line hline]
  unfold nuclear_kill
  cases hd : env.pm2DeleteFails <;> simp [e1, e2]

/-- C5: for every slot in [1,5], invoking the Termination Engine on a slot
with nothing alive returns the empty kill set and propagates no fault (the
embedded engine is total: every strategy failure is swallowed); two
consecutive invocations on an already-dead slot both return the empty set. -/
theorem galaxy_nuclear_kill_idempotent (env env2 : KillEnv) (n : Nat)
    (_hn : 1 ≤ n ∧ n ≤ 5) (h : slotDead env n = true) (h2 : slotDead env2 n = true) :
    nuclear_kill env n = [] ∧ nuclear_kill env2 n = [] :=
  ⟨nuclear_kill_dead h, nuclear_kill_dead h2⟩

/-- Witness for C5 at a concrete environment. -/
theorem galaxy_nuclear_kill_idempotent_witness :
    (((1:Nat) ≤ 2 ∧ (2:Nat) ≤ 5) ∧ slotDead deadEnv 2 = true) ∧
    (nuclear_kill deadEnv 2 = [] ∧ nuclear_kill deadEnv 2 = []) :=
  ⟨⟨⟨by omega, by omega⟩, rfl⟩,
    galaxy_nuclear_kill_idempotent deadEnv deadEnv 2 ⟨by omega, by omega⟩ rfl rfl⟩

/-- C8 counterexample: with slots 1 and 2 both registered to session
`"sess"`, a disconnect of `"sess"` removes only the slot-1 mapping; the
slot-2 mapping still points at the dropped session. -/
theorem galaxy_disconnect_first_only_cex :
    handle_disconnect [(1, "sess"), (2, "sess")] "sess" = [(2, "sess")] ∧
    (2, "sess") ∈ handle_disconnect [(1, "sess"), (2, "sess")] "sess" :=
  ⟨rfl, by decide⟩

/-- C8 amended: a disconnect removes exactly the first mapping (in
registration order) that points at the dropped session; every other mapping
— including later ones pointing at the same session — is kept. -/
theorem galaxy_disconnect_removes_first (pre post : Connections) (k : Nat) (sid : String)
    (hpre : ∀ p ∈ pre, p.2 ≠ sid) :
    handle_disconnect (pre ++ (k, sid) :: post) sid = pre ++ post := by
  induction pre with
  | nil => simp [handle_disconnect]
  | cons q rest ih =>
    obtain ⟨qk, qs⟩ := q
    have hq : qs ≠ sid := hpre (qk, qs) (List.mem_cons_self _ _)
    simp only [List.cons_append, handle_disconnect]
    rw [if_neg (by simpa using hq)]
    simp only [List.append_eq]
    rw [ih (fun p hp => hpre p (List.mem_cons_of_mem _ hp))]

/-- Witness for the amended C8 theorem at a concrete registry. -/
theorem galaxy_disconnect_removes_first_witness :
    (∀ p ∈ [((1:Nat), "a")], p.2 ≠ "sess") ∧
    handle_disconnect ([((1:Nat), "a")] ++ (2, "sess") :: [(3, "sess")]) "sess" =
      [((1:Nat), "a")] ++ [(3, "sess")] :=
  ⟨by decide, galaxy_disconnect_removes_first [(1, "a")] [(3, "sess")] 2 "sess" (by decide)⟩

/-- C7 counterexample: when the supervisor query fails, the synthesized
snapshot marks slot 1 not running — but its lifecycle status string is
`"stopped"` (the `.get('status', 'stopped')` default), not `"unknown"` as
the claim states. -/
theorem galaxy_status_failure_cex :
    List.lookup "form_1" (get_status ⟨-1, []⟩ 0 Option.none).1 =
      some { running := false, pid := Option.none, status := "stopped",
             cpu := 0, memory := 0 } ∧
    "stopped" ≠ "unknown" := by
  constructor
  · unfold get_status
    rw [if_neg (by norm_num)]
    decide
  · decide

/-- C7 amended: on supervisor failure (or timeout or unparsable output) a
stale-cache status call synthesizes, for every slot in [1,5], an entry that
is not running with no pid, zero cpu/memory, and lifecycle status
`"stopped"`. -/
theorem galaxy_status_failure_snapshot (cache : StatusCache) (now : ℚ)
    (hstale : ¬ now - cache.time < 3/10) (n : Nat) (hn : 1 ≤ n ∧ n ≤ 5) :
    List.lookup ("form_" ++ toString n) (get_status cache now Option.none).1 =
      some { running := false, pid := Option.none, status := "stopped",
             cpu := 0, memory := 0 } := by
  unfold get_status
  rw [if_neg hstale]
  show List.lookup ("form_" ++ toString n) (buildStatus (get_pm2_status Option.none)) = _
  obtain ⟨h1, h5⟩ := hn
  interval_cases n <;> decide

/-- Witness for the amended C7 theorem at a concrete input. -/
theorem galaxy_status_failure_snapshot_witness :
    (¬ ((0:ℚ) - (StatusCache.mk (-1) []).time < 3/10)) ∧
    ((1:Nat) ≤ 3 ∧ (3:Nat) ≤ 5) ∧
    List.lookup ("form_" ++ toString 3) (get_status ⟨-1, []⟩ 0 Option.none).1 =
      some { running := false, pid := Option.none, status := "stopped",
             cpu := 0, memory := 0 } :=
  ⟨by norm_num, ⟨by omega, by omega⟩,
    galaxy_status_failure_snapshot ⟨-1, []⟩ 0 (by norm_num) 3 ⟨by omega, by omega⟩⟩

/-- C10: every status call that finds the cache stale rebuilds the snapshot —
including one whose supervisor query failed — stores that snapshot and the
call's timestamp in the cache, and every subsequent call within the 0.3 s
freshness window returns exactly the stored snapshot with the cache
untouched, regardless of the supervisor's state in the interim. -/
theorem galaxy_status_cache_policy (cache : StatusCache) (now : ℚ)
    (sup : Option (List PmProc)) (hstale : ¬ now - cache.time < 3/10) :
    (get_status cache now sup).2.data = (get_status cache now sup).1 ∧
    (get_status cache now sup).2.time = now ∧
    (∀ (now2 : ℚ) (sup2 : Option (List PmProc)), now2 - now < 3/10 →
      get_status (get_status cache now sup).2 now2 sup2 =
        ((get_status cache now sup).1, (get_status cache now sup).2)) := by
  unfold get_status
  rw [if_neg hstale]
  refine ⟨rfl, rfl, ?_⟩
  intro now2 sup2 hfresh
  rw [if_pos (by simpa using hfresh)]

/-- Witness for C10 at concrete inputs: a failed-query rebuild at time 0 is
stored and served unchanged at time 1/10 even though the supervisor then
reports a live process. -/
theorem galaxy_status_cache_policy_witness :
    (¬ ((0:ℚ) - (StatusCache.mk (-1) []).time < 3/10)) ∧
    ((1:ℚ)/10 - 0 < 3/10) ∧
    get_status (get_status ⟨-1, []⟩ 0 Option.none).2 (1/10)
        (some [⟨"galaxy_1", some "online", some 7, some 1, some 2⟩]) =
      ((get_status ⟨-1, []⟩ 0 Option.none).1, (get_status ⟨-1, []⟩ 0 Option.none).2) :=
  ⟨by norm_num, by norm_num,
    (galaxy_status_cache_policy ⟨-1, []⟩ 0 Option.none (by norm_num)).2.2 (1/10)
      (some [⟨"galaxy_1", some "online", some 7, some 1, some 2⟩]) (by norm_num)⟩
